import Mathlib

/-!
Shallow embedding of `pyxtal/io.py` (molecular-crystal extraction, site
resolution and CIF serialization) and proofs about its specified behaviour.

Modelling conventions:
* Python floats are modelled as rationals (`ℚ`); numpy 3-vectors and 3×3
  matrices as `Vec3` and `Mat3`.
* Python exceptions are modelled as `Except.error` carrying the exception
  text; functions that cannot raise stay pure.
* External collaborators (pymatgen neighbour queries, the covalent-bond
  predicate, the graph-isomorphism matcher, `WP_merge`, openbabel's rigid
  aligner, the space-group database) are function-valued parameters or
  record fields, exactly at the call boundary where `io.py` invokes them.
-/

set_option maxRecDepth 4000

namespace PyXtalIO

/-- A 3-vector of rational coordinates. -/
abbrev Vec3 := ℚ × ℚ × ℚ

/-- A 3×3 matrix stored as three rows. -/
abbrev Mat3 := Vec3 × Vec3 × Vec3

/-- Componentwise vector addition. -/
def vecAdd (a b : Vec3) : Vec3 := (a.1 + b.1, a.2.1 + b.2.1, a.2.2 + b.2.2)

/-- Scalar multiple of a vector. -/
def vecSMul (c : ℚ) (v : Vec3) : Vec3 := (c * v.1, c * v.2.1, c * v.2.2)

/-- Row vector times 3×3 matrix, numpy's `v.dot(M)`. -/
def rowMatMul (v : Vec3) (M : Mat3) : Vec3 :=
  vecAdd (vecAdd (vecSMul v.1 M.1) (vecSMul v.2.1 M.2.1)) (vecSMul v.2.2 M.2.2)

/-- 3×3 matrix times column vector, numpy's `M.dot(v)`. -/
def matVecMul (M : Mat3) (v : Vec3) : Vec3 :=
  (M.1.1 * v.1 + M.1.2.1 * v.2.1 + M.1.2.2 * v.2.2,
   M.2.1.1 * v.1 + M.2.1.2.1 * v.2.1 + M.2.1.2.2 * v.2.2,
   M.2.2.1 * v.1 + M.2.2.2.1 * v.2.1 + M.2.2.2.2 * v.2.2)

/-- Numpy's `np.mean(coords, axis=0)` over a list of 3-vectors. -/
def vecMean (l : List Vec3) : Vec3 :=
  vecSMul (1 / (l.length : ℚ)) (l.foldl vecAdd (0, 0, 0))

/-- A pymatgen (periodic) site as used by the traversal: the provenance index
in the parent structure, cartesian coordinates of this image, and the atomic
number (`site.specie.number`). -/
structure PSite where
  index : Nat
  coords : Vec3
  number : Nat
deriving DecidableEq

/-- The slice of the pymatgen `Structure` interface that
`search_molecule_in_crystal` uses: the site list, the periodic neighbour query
`struc.get_neighbors(site, 3.0)` (the 3.0 cutoff is baked into the collaborator
here, as in the source), and the bonding predicate
`CovalentBond.is_bonded(site0, site1, tol)`. -/
structure PStructure where
  sites : List PSite
  getNeighbors : PSite → List PSite
  isBonded : PSite → PSite → ℚ → Bool

/-- Inner helper `check_one_site(struc, site0, visited)`: scan the neighbours
of `site0`, collecting those whose index is not yet in `visited` (nor already
collected in this scan) and that pass the bonding predicate; extend `visited`
with the newly found sites. Returns `(sites_add, visited)`. -/
def check_one_site (struc : PStructure) (tol : ℚ) (site0 : PSite)
    (visited : List PSite) : List PSite × List PSite :=
  let neigh_sites := struc.getNeighbors site0
  let ids := visited.map PSite.index
  let sa := neigh_sites.foldl
    (fun (acc : List PSite × List Nat) site1 =>
      if site1.index ∈ ids ++ acc.2 then acc
      else if struc.isBonded site0 site1 tol then
        (acc.1 ++ [site1], acc.2 ++ [site1.index])
      else acc)
    ([], [])
  let sites_add := sa.1
  let visited' := if sites_add.length > 0 then visited ++ sites_add else visited
  (sites_add, visited')

/-- Inner helper `check_one_layer(struc, sites0, visited)`: run
`check_one_site` over the whole frontier, accumulating the new members. -/
def check_one_layer (struc : PStructure) (tol : ℚ) (sites0 : List PSite)
    (visited : List PSite) : List PSite × List PSite :=
  sites0.foldl
    (fun (acc : List PSite × List PSite) site0 =>
      let r := check_one_site struc tol site0 acc.2
      (acc.1 ++ r.1, r.2))
    ([], visited)

/-- The `while n_iter < max_iter` loop of `search_molecule_in_crystal`,
with the remaining iteration budget as structural fuel (`fuel` starts at
`max_iter` and `n_iter` at `0`, so `fuel = max_iter - n_iter` throughout).
Returns the visited list together with the final value of `n_iter`. -/
def searchLoop (struc : PStructure) (tol : ℚ) (firstSite : PSite) :
    Nat → Nat → List PSite → List PSite → List PSite × Nat
  | 0, nIter, _, visited => (visited, nIter)
  | fuel + 1, nIter, newSites, visited =>
    let r := if nIter = 0 then check_one_site struc tol firstSite visited
             else check_one_layer struc tol newSites visited
    if r.1.length = 0 then (r.2, nIter + 1)
    else searchLoop struc tol firstSite fuel (nIter + 1) r.1 r.2

/-- `search_molecule_in_crystal(struc, tol, keep_order, absolute)`.

Faithfulness notes on the error branches, which mirror CPython/numpy:
* an empty structure raises `IndexError` at `struc.sites[0]`;
* with `keep_order=True`, the source indexes the plain Python lists `coords`
  and `numbers` with the numpy array `np.argsort(ids)`; indexing a list with
  a multi-element ndarray raises `TypeError`, so this branch only survives
  when exactly one atom was visited (a one-element array is accepted as a
  scalar index, and sorting a singleton is the identity);
* with `absolute=False`, the source calls `.dot` on the plain list `coords`,
  which raises `AttributeError`. -/
def search_molecule_in_crystal (struc : PStructure) (tol : ℚ)
    (keep_order : Bool) (absolute : Bool) :
    Except String (List Vec3 × List Nat) :=
  match struc.sites with
  | [] => .error "IndexError: list index out of range"
  | s0 :: _ =>
    let first_site : PSite := { s0 with index := 0 }
    let max_iter := struc.sites.length
    let r := searchLoop struc tol first_site max_iter 0 [] [first_site]
    let visited := r.1
    let coords := visited.map PSite.coords
    let numbers := visited.map PSite.number
    if keep_order ∧ visited.length ≠ 1 then
      .error "TypeError: only integer scalar arrays can be converted to a scalar index"
    else if absolute then .ok (coords, numbers)
    else .error "AttributeError: list object has no attribute dot"

/-- The number of layer iterations (`n_iter`) the traversal executes; `0` for
the empty structure, whose seed access raises before the loop is reached. -/
def searchIterCount (struc : PStructure) (tol : ℚ) : Nat :=
  match struc.sites with
  | [] => 0
  | s0 :: _ =>
    let first_site : PSite := { s0 with index := 0 }
    (searchLoop struc tol first_site struc.sites.length 0 [] [first_site]).2

/-- A concrete two-atom structure whose two atoms are mutually bonded
neighbours: atom 0 at the origin and atom 1 at (1,0,0), both carbon (Z = 6). -/
def twoAtomStruc : PStructure where
  sites := [⟨0, (0, 0, 0), 6⟩, ⟨1, (1, 0, 0), 6⟩]
  getNeighbors := fun s =>
    if s.index = 0 then [⟨1, (1, 0, 0), 6⟩] else [⟨0, (0, 0, 0), 6⟩]
  isBonded := fun _ _ _ => true

/-- A pymatgen `Molecule`: atomic numbers paired with cartesian coordinates
(`Molecule(numbers, coords)`; `len(mol)` is `numbers.length`). -/
structure Mol where
  numbers : List Nat
  cartCoords : List Vec3
deriving DecidableEq

/-- A pyxtal `Wyckoff_position` as used here: `len(wp)` (its multiplicity),
its generator operators as xyz strings, and the space-group number it belongs
to. -/
structure Wyc where
  mult : Nat
  generators : List String
  number : Nat
deriving DecidableEq

/-- The slice of the pyxtal `Lattice` object used by `match`: the 3×3 cell
matrix and its inverse. -/
structure LatticeM where
  matrix : Mat3
  inv_matrix : Mat3
deriving DecidableEq

/-- The mutable state of a `structure_from_ext` object as `match`/`align` see
it. `position`, `ori` and `mol_aligned` are `Option`-valued because Python
only creates these attributes on the successful branch. -/
structure ExtState where
  ref_mol : Mol
  molecule : Mol
  wyc : Wyc
  pmg_len : Nat
  lattice : LatticeM
  position : Option Vec3
  ori : Option Mat3
  mol_aligned : Option Mol
deriving DecidableEq

/-- `structure_from_ext.align`: the openbabel `OBAlign` collaborator is
abstracted as `rotOf ref target`, the rotation matrix it reports. The rest is
the source's arithmetic: centre the discovered molecule, rotate it, translate
it onto the reference centroid, store the aligned copy and the orientation. -/
def alignStep (rotOf : Mol → Mol → Mat3) (st : ExtState) : ExtState :=
  let rot := rotOf st.ref_mol st.molecule
  let c2mean := vecMean st.molecule.cartCoords
  let coord2 := st.molecule.cartCoords.map (fun v => vecAdd v (vecSMul (-1) c2mean))
  let refMean := vecMean st.ref_mol.cartCoords
  let coord3 := coord2.map (fun v => vecAdd (matVecMul rot v) refMean)
  { st with mol_aligned := some ⟨st.ref_mol.numbers, coord3⟩, ori := some rot }

/-- The index-aligned fragment coordinates built in `match`:
`order = [mapping[i] for i in range(len(self.ref_mol))]`,
`coords = self.molecule.cart_coords[order]`. The isomorphism mapping is total
on `range(len(ref_mol))`, so the out-of-range default is never hit for real
mappings. -/
def reorderedCoords (st : ExtState) (mapping : Nat → Nat) : List Vec3 :=
  ((List.range st.ref_mol.numbers.length).map mapping).map
    (fun i => st.molecule.cartCoords.getD i (0, 0, 0))

/-- One component of `position -= np.floor(position)`. -/
def reduceComp (q : ℚ) : ℚ := q - (⌊q⌋ : ℚ)

/-- Componentwise reduction of a fractional position into the unit cell. -/
def reduce3 (v : Vec3) : Vec3 := (reduceComp v.1, reduceComp v.2.1, reduceComp v.2.2)

/-- The tentative fractional position computed in `match`: the cartesian
centroid of the index-aligned fragment, multiplied by the lattice's inverse
matrix, then reduced by subtracting the componentwise floor. -/
def tentativePosition (st : ExtState) (mapping : Nat → Nat) : Vec3 :=
  reduce3 (rowMatMul (vecMean (reorderedCoords st mapping)) st.lattice.inv_matrix)

/-- `structure_from_ext.match`. The graph-isomorphism collaborator
`compare_mol_connectivity(ref_mol, molecule)` is abstracted as its returned
pair `cmp = (match, mapping)`; `WP_merge` and the openbabel rotation are the
function parameters `wpMerge` (returning its `(position, wp, _)` triple) and
`rotOf`. Returns the Python return value together with the updated state. -/
def matchFn (cmp : Bool × (Nat → Nat))
    (wpMerge : Vec3 → Mat3 → Wyc → ℚ → Vec3 × Wyc × Unit)
    (rotOf : Mol → Mol → Mat3) (st : ExtState) : Bool × ExtState :=
  if cmp.1 = false then (false, st)
  else
    let order := (List.range st.ref_mol.numbers.length).map cmp.2
    let numbers := order.map (fun i => st.molecule.numbers.getD i 0)
    let coords := reorderedCoords st cmp.2
    let position0 := tentativePosition st cmp.2
    let pw : Vec3 × Wyc :=
      if (st.pmg_len : ℚ) / (st.molecule.numbers.length : ℚ) < (st.wyc.mult : ℚ) then
        let m := wpMerge position0 st.lattice.matrix st.wyc 2
        (m.1, m.2.1)
      else (position0, st.wyc)
    let cmean := vecMean coords
    let st1 := { st with
      wyc := pw.2
      position := some pw.1
      molecule := ⟨numbers, coords.map (fun v => vecAdd v (vecSMul (-1) cmean))⟩ }
    (true, alignStep rotOf st1)

/-- The identity 3×3 matrix, used by concrete witnesses. -/
def I3 : Mat3 := ((1, 0, 0), (0, 1, 0), (0, 0, 1))

/-- Concrete state for the merge-dispatch witness: 2 atoms in the cell, a
2-atom fragment, generic multiplicity 2, so 1 molecule < 2. -/
def wSt3 : ExtState :=
  ⟨⟨[6, 6], [(0, 0, 0), (1, 0, 0)]⟩, ⟨[6, 6], [(0, 0, 0), (1, 0, 0)]⟩,
    ⟨2, ["x, y, z"], 2⟩, 2, ⟨I3, I3⟩, none, none, none⟩

/-- Concrete merge collaborator for the witness: moves the position to the
origin and halves the orbit multiplicity. -/
def wMerge : Vec3 → Mat3 → Wyc → ℚ → Vec3 × Wyc × Unit :=
  fun _ _ w _ => ((0, 0, 0), ⟨1, w.generators, w.number⟩, ())

/-- Constant rotation collaborator for the witnesses. -/
def wRot : Mol → Mol → Mat3 := fun _ _ => I3

/-- Concrete state for the non-match witness. -/
def wSt7 : ExtState :=
  ⟨⟨[6], [(0, 0, 0)]⟩, ⟨[6], [(0, 0, 0)]⟩, ⟨1, ["x, y, z"], 1⟩, 1,
    ⟨I3, I3⟩, none, none, none⟩

/-- The `ref_mol` argument of `structure_from_ext.__init__`, as the runtime
type dispatch sees it: a file-path string, a pymatgen `Molecule`, or anything
else (including the default `None`). -/
inductive RefMolArg
  | path (p : String)
  | mol (m : Mol)
  | other

/-- The `struc` argument of `structure_from_ext.__init__`: a file-path
string, a pymatgen `Structure`, or anything else. -/
inductive StrucArg
  | path (p : String)
  | struc (s : PStructure)
  | other

/-- The external collaborators `structure_from_ext.__init__` calls, all
outside `src/` and assumed total on the inputs the constructor hands them. -/
structure IOCollabs where
  moleculeFromFile : String → Mol
  structureFromFile : String → PStructure
  getCenteredMolecule : Mol → Mol
  spaceGroupOps : PStructure → List String
  fromSymops : List String → Option Wyc × List Nat
  groupLatticeType : Nat → String
  swapStructure : PStructure → List Nat → PStructure
  latticeFromMatrix : PStructure → String → LatticeM

/-- The fields `structure_from_ext.__init__` creates on success. -/
structure InitState where
  ref_mol : Mol
  tol : ℚ
  wyc : Wyc
  lattice_type : String
  molecule : Mol
  pmg_struc : PStructure
  lattice : LatticeM

/-- The `isinstance` dispatch on `ref_mol` (lines 131-137). -/
def resolveRefMol (C : IOCollabs) : RefMolArg → Option Mol
  | .path p => some (C.moleculeFromFile p)
  | .mol m => some m
  | .other => none

/-- The `isinstance` dispatch on `struc` (lines 140-146). -/
def resolveStruc (C : IOCollabs) : StrucArg → Option PStructure
  | .path p => some (C.structureFromFile p)
  | .struc s => some s
  | .other => none

/-- The structure actually searched: the axis-swapped rebuild when the
space-group service reports a non-identity axis permutation, the input
structure otherwise (lines 157-161). -/
def initSearchStruc (C : IOCollabs) (pmg : PStructure) : PStructure :=
  if (C.fromSymops (C.spaceGroupOps pmg)).2 ≠ [0, 1, 2] then
    C.swapStructure pmg (C.fromSymops (C.spaceGroupOps pmg)).2
  else pmg

/-- `structure_from_ext.__init__(struc, ref_mol, tol)`: dispatch on the two
input arguments, resolve the space group from the symmetry operations, maybe
swap axes, extract the seed-connected molecule, and build the lattice.
Errors are the Python exceptions, in source order. -/
def structure_from_ext_init (C : IOCollabs) (strucArg : StrucArg)
    (refArg : RefMolArg) (tol : ℚ) : Except String InitState :=
  match resolveRefMol C refArg with
  | none => .error "NameError: reference molecule cannot be defined"
  | some ref_mol =>
    match resolveStruc C strucArg with
    | none => .error "NameError: input structure cannot be intepretted"
    | some pmg0 =>
      let refc := C.getCenteredMolecule ref_mol
      match (C.fromSymops (C.spaceGroupOps pmg0)).1 with
      | none => .error "ValueError: Cannot find the space group matching the symmetry operation"
      | some wyc =>
        let ltype := C.groupLatticeType wyc.number
        let pmg := initSearchStruc C pmg0
        match search_molecule_in_crystal pmg tol false true with
        | .error e => .error e
        | .ok cn =>
          .ok { ref_mol := refc, tol := tol, wyc := wyc, lattice_type := ltype,
                molecule := ⟨cn.2, cn.1⟩, pmg_struc := pmg,
                lattice := C.latticeFromMatrix pmg ltype }

/-- A concrete one-atom structure with no neighbours, for witnesses. -/
def oneAtomStruc : PStructure where
  sites := [⟨0, (0, 0, 0), 6⟩]
  getNeighbors := fun _ => []
  isBonded := fun _ _ _ => false

/-- Concrete collaborators for the constructor witness: the space-group
service always resolves group 1 with the identity axis order. -/
def wCollabs : IOCollabs where
  moleculeFromFile := fun _ => ⟨[6], [(0, 0, 0)]⟩
  structureFromFile := fun _ => oneAtomStruc
  getCenteredMolecule := fun m => m
  spaceGroupOps := fun _ => ["x, y, z"]
  fromSymops := fun _ => (some ⟨1, ["x, y, z"], 1⟩, [0, 1, 2])
  groupLatticeType := fun _ => "triclinic"
  swapStructure := fun s _ => s
  latticeFromMatrix := fun _ _ => ⟨I3, I3⟩

/-- The slice of a pymatgen molecule object returned by
`site.get_mol_object(id)` that `write_cif` reads: cartesian coordinates and
the species symbols (`[s.value for s in mol.species]`). -/
structure MolObjD where
  cart_coords : List Vec3
  species : List String

/-- The slice of a pyxtal site object that `write_cif` reads. A molecular
site provides `wp.generators` (as xyz strings),
`_get_coords_and_species(first=True)`, `get_mol_object(id)` and
`inv_lattice`; a single-atom site provides `position` and `specie`. One
record carries both faces, as Python's duck-typed sites do. -/
structure SiteD where
  wpGenerators : List String
  firstCoords : List Vec3
  firstSpecies : List String
  getMolObject : Nat → MolObjD
  inv_lattice : Mat3
  position : Vec3
  specie : String

instance : Inhabited SiteD :=
  ⟨⟨[], [], [], fun _ => ⟨[], []⟩, ((0, 0, 0), (0, 0, 0), (0, 0, 0)), (0, 0, 0), ""⟩⟩

/-- The slice of a pyxtal `Group` object that `write_cif` reads: lattice
type, Hermann-Mauguin symbol, International Tables number, and the first
Wyckoff position's operator list `G1` as xyz strings. -/
structure GroupD where
  lattice_type : String
  symbol : String
  number : Int
  g1 : List String

/-- Cell parameters of `struc.lattice`: lengths, and angles in radians. -/
structure LatticeP where
  a : ℚ
  b : ℚ
  c : ℚ
  alpha : ℚ
  beta : ℚ
  gamma : ℚ

/-- The slice of a pyxtal structure object that `write_cif` reads.
`mol_sites = some _` models `hasattr(struc, 'mol_sites')`, and
`energy = some _` models `hasattr(struc, 'energy')`. -/
structure StrucD where
  group : GroupD
  mol_sites : Option (List SiteD)
  atom_sites : List SiteD
  energy : Option ℚ
  numMols : List Nat
  lattice : LatticeP

/-- Modelled from the spec: `pyxtal.constants.logo` (not under `src/`), the
fixed banner block every serialized document starts with; no claim depends
on its text beyond it not containing the loop lines checked below. -/
def logo : String := "# file generated by the structure toolkit\n"

/-- Modelled from the spec: `pyxtal.constants.deg` (not under `src/`), the
radian-to-degree conversion factor 180/pi, as a rational approximation. -/
def deg : ℚ := 57.29577951308232

/-- Modelled from the spec: `Group(1).Wyckoff_positions[0]` (pyxtal.symmetry,
not under `src/`) — the identity-only general-position operator set of space
group 1, whose single operator prints as the xyz string. -/
def group1_G1 : List String := ["x, y, z"]

/-- A run of `n` spaces. -/
def spaces (n : Nat) : String := String.mk (List.replicate n ' ')

/-- Right-align `s` in width `w` (Python's `{:>w}`). -/
def padLeft (w : Nat) (s : String) : String := spaces (w - s.length) ++ s

/-- Left-align `s` in width `w` (Python's `{:w s}` minimum width). -/
def padRight (w : Nat) (s : String) : String := s ++ spaces (w - s.length)

/-- Zero-pad `s` on the left to width `w`. -/
def zeroPad (w : Nat) (s : String) : String :=
  String.mk (List.replicate (w - s.length) '0') ++ s

/-- Python's fixed-point format code `{:w.6f}`: six digits after the decimal
point, right-aligned to width `w`, rounding to nearest (all formatted inputs
of the claims are exactly representable, so ties never arise). -/
def fmtF6 (w : Nat) (q : ℚ) : String :=
  let scaled : ℤ := round (q * 1000000)
  let sign := if scaled < 0 then "-" else ""
  let n := scaled.natAbs
  padLeft w (sign ++ Nat.repr (n / 1000000) ++ "." ++ zeroPad 6 (Nat.repr (n % 1000000)))

/-- The single-quote character of the CIF operator lines. -/
def sq : String := String.singleton (Char.ofNat 39)

/-- Python's default `str` display of a number, used only by the energy
annotation line, whose numeric text no claim constrains. -/
def pyNumRepr (q : ℚ) : String := toString q

/-- Lines 20-30 of `write_cif`: the symmetry metadata used — lattice type,
symbol, space-group number and the tabulated generator set `G1`; the fixed
P1 data when `sym_num` is given. -/
def cifParams (struc : StrucD) (sym_num : Option Nat) :
    String × String × Int × List String :=
  match sym_num with
  | none => (struc.group.lattice_type, struc.group.symbol, struc.group.number,
      struc.group.g1)
  | some _ => ("triclinic", "P1", 1, group1_G1)

/-- Lines 32-37: molecular sites when the structure has them, atomic sites
otherwise, together with the `molecule` flag. -/
def cifSites (struc : StrucD) : List SiteD × Bool :=
  match struc.mol_sites with
  | some s => (s, true)
  | none => (struc.atom_sites, false)

/-- Lines 39-43: the monoclinic substitution flag, true exactly when the
lattice type is monoclinic and `G1` differs from the first site's own
generator set. Python reads `sites[0]` here; `write_cif` below raises the
corresponding `IndexError` before consulting this on an empty site list. -/
def cifChangeSet (l_type : String) (G1 : List String) (sites : List SiteD) : Bool :=
  if l_type = "monoclinic" then decide (G1 ≠ (sites.headD default).wpGenerators)
  else false

/-- The space-group symbol `write_cif` emits: every letter c replaced by n
when the substitution flag is set (line 42), unchanged otherwise. -/
def cifSymbolUsed (struc : StrucD) (sym_num : Option Nat) : String :=
  let p := cifParams struc sym_num
  if cifChangeSet p.1 p.2.2.2 (cifSites struc).1 then (p.2.1).replace "c" "n"
  else p.2.1

/-- Lines 63-66: the operator list of the symmetry loop — `G1`, or the first
site's own generators when the substitution flag is set. -/
def cifWpsUsed (struc : StrucD) (sym_num : Option Nat) : List String :=
  let p := cifParams struc sym_num
  if cifChangeSet p.1 p.2.2.2 (cifSites struc).1 then
    ((cifSites struc).1.headD default).wpGenerators
  else p.2.2.2

/-- Lines 83-92: the `for id in range(sym_num)` accumulation over a molecular
site, with the `None`-seeded coordinate accumulator and the species list
extended per copy, exactly as in the source. -/
def molSymRows (site : SiteD) (n : Nat) : Option (List Vec3) × List String :=
  (List.range n).foldl
    (fun (acc : Option (List Vec3) × List String) i =>
      let mol := site.getMolObject i
      let tmp := mol.cart_coords.map (fun v => rowMatMul v site.inv_lattice)
      (match acc.1 with
       | none => some tmp
       | some cs => some (cs ++ tmp),
       acc.2 ++ mol.species))
    (none, [])

/-- Lines 78-96 for one site: the `(specie, coord)` pairs the atom loop
prints. A molecular site with `sym_num = 0` leaves the coordinate
accumulator at `None` and Python's `zip` then raises `TypeError`. -/
def cifSiteRowsE (site : SiteD) (molecule : Bool) (sym_num : Option Nat) :
    Except String (List (String × Vec3)) :=
  if molecule then
    match sym_num with
    | none => .ok (List.zip site.firstSpecies site.firstCoords)
    | some n =>
      match (molSymRows site n).1 with
      | none => .error "TypeError: zip argument #2 must support iteration"
      | some cs => .ok (List.zip (molSymRows site n).2 cs)
  else .ok (List.zip [site.specie] [site.position])

/-- The atom-loop rows over all sites, in site order. -/
def cifAtomRows (sites : List SiteD) (molecule : Bool) (sym_num : Option Nat) :
    Except String (List (String × Vec3)) :=
  sites.foldl
    (fun acc site => do
      let rows ← acc
      let r ← cifSiteRowsE site molecule sym_num
      pure (rows ++ r))
    (.ok [])

/-- Line 48: the optional energy annotation (`ZeroDivisionError` when the
structure carries an energy but `sum(numMols)` is zero). -/
def cifEnergyLine (struc : StrucD) : Except String String :=
  match struc.energy with
  | none => .ok ""
  | some e =>
    if struc.numMols.sum = 0 then .error "ZeroDivisionError: float division by zero"
    else .ok ("#Energy: " ++ pyNumRepr (e / (struc.numMols.sum : ℚ)) ++ " eV/cell\n")

/-- One symmetry-operator line: `"{:d} '{:s}'\n"` with a 1-based index. -/
def opLine (i : Nat) (op : String) : String :=
  Nat.repr (i + 1) ++ " " ++ sq ++ op ++ sq ++ "\n"

/-- The symmetry-operator loop body (line 68-69). -/
def opLines (wps : List String) : String :=
  String.join (wps.enum.map (fun p => opLine p.1 p.2))

/-- One atom-site line: `"{:6s}  {:12.6f}{:12.6f}{:12.6f} 1\n"`. -/
def atomLine (specie : String) (coord : Vec3) : String :=
  padRight 6 specie ++ "  " ++ fmtF6 12 coord.1 ++ fmtF6 12 coord.2.1 ++
    fmtF6 12 coord.2.2 ++ " 1\n"

/-- `write_cif(struc, filename=None, header, permission, sym_num)` — the
in-memory branch (`filename = None`; the final file write is I/O and out of
scope). Errors are the Python exceptions in source order: `IndexError` when
the monoclinic branch reads `sites[0]` of an empty site list,
`ZeroDivisionError` from the energy annotation, `TypeError` from a molecular
site with `sym_num = 0`. -/
def write_cif (struc : StrucD) (header : String) (sym_num : Option Nat) :
    Except String String := do
  let p := cifParams struc sym_num
  let l_type := p.1
  let number := p.2.2.1
  let sm := cifSites struc
  let sites := sm.1
  let molecule := sm.2
  if l_type = "monoclinic" ∧ sites.isEmpty = true then
    throw "IndexError: list index out of range"
  let symbol := cifSymbolUsed struc sym_num
  let energyLine ← cifEnergyLine struc
  let rows ← cifAtomRows sites molecule sym_num
  return logo ++ "data_" ++ header ++ "\n" ++ energyLine ++
    "\n_symmetry_space_group_name_H-M " ++ sq ++ symbol ++ sq ++ "\n" ++
    "_symmetry_Int_Tables_number      " ++ padLeft 15 (toString number) ++ "\n" ++
    "_symmetry_cell_setting           " ++ padLeft 15 l_type ++ "\n" ++
    "_cell_length_a        " ++ fmtF6 12 struc.lattice.a ++ "\n" ++
    "_cell_length_b        " ++ fmtF6 12 struc.lattice.b ++ "\n" ++
    "_cell_length_c        " ++ fmtF6 12 struc.lattice.c ++ "\n" ++
    "_cell_angle_alpha     " ++ fmtF6 12 (deg * struc.lattice.alpha) ++ "\n" ++
    "_cell_angle_beta      " ++ fmtF6 12 (deg * struc.lattice.beta) ++ "\n" ++
    "_cell_angle_gamma     " ++ fmtF6 12 (deg * struc.lattice.gamma) ++ "\n" ++
    "\nloop_\n _symmetry_equiv_pos_site_id\n _symmetry_equiv_pos_as_xyz\n" ++
    opLines (cifWpsUsed struc sym_num) ++
    "\nloop_\n _atom_site_label\n _atom_site_fract_x\n _atom_site_fract_y\n" ++
    " _atom_site_fract_z\n _atom_site_occupancy\n" ++
    String.join (rows.map (fun r => atomLine r.1 r.2)) ++
    "#END\n\n"

/-- Split a character list at newline characters, the per-line view used to
state properties of the emitted document. -/
def splitNl (l : List Char) : List (List Char) :=
  match l with
  | [] => [[]]
  | c :: cs =>
    match splitNl cs with
    | [] => [[]]
    | h :: t => if c = '\n' then [] :: h :: t else (c :: h) :: t

/-- The number of lines of `s` equal to `line`. -/
def countLine (s line : String) : Nat :=
  (splitNl s.toList).count line.toList

/-- Suffix test on strings, via their character lists. -/
def strEndsWith (s tail : String) : Bool :=
  List.isSuffixOf tail.toList s.toList

/-- Whether `e` is a success whose value satisfies `p`. -/
def cifOkSat (e : Except String String) (p : String → Bool) : Bool :=
  match e with
  | .ok s => p s
  | .error _ => false

/-- A molecular site for the serializer witnesses: each symmetry copy is one
hydrogen atom at (1,1,1). -/
def wMolSite : SiteD :=
  { wpGenerators := ["x, y, z"], firstCoords := [(0, 0, 0)], firstSpecies := ["H"],
    getMolObject := fun _ => ⟨[(1, 1, 1)], ["H"]⟩, inv_lattice := I3,
    position := (0, 0, 0), specie := "H" }

/-- A monoclinic structure with the single molecular site `wMolSite`, whose
generator set differs from the group's tabulated `G1`. -/
def wMolStruc : StrucD :=
  { group := ⟨"monoclinic", "P2/c", 13, ["x, y, z", "-x, y, -z+1/2"]⟩,
    mol_sites := some [wMolSite], atom_sites := [], energy := none,
    numMols := [2], lattice := ⟨5, 6, 7, 157/100, 157/100, 157/100⟩ }

/-- Concrete single-atom triclinic P1 site at fractional (0.1, 0.2, 0.3). -/
def c5Site : SiteD :=
  { wpGenerators := ["x, y, z"], firstCoords := [], firstSpecies := [],
    getMolObject := fun _ => ⟨[], []⟩, inv_lattice := I3,
    position := (1/10, 2/10, 3/10), specie := "C" }

/-- Concrete triclinic P1 structure holding only `c5Site`, without energy. -/
def c5Struc : StrucD :=
  { group := ⟨"triclinic", "P1", 1, ["x, y, z"]⟩, mol_sites := none,
    atom_sites := [c5Site], energy := none, numMols := [1],
    lattice := ⟨54/10, 55/10, 56/10, 157/100, 157/100, 157/100⟩ }

theorem searchLoop_iter_le (struc : PStructure) (tol : ℚ) (fs : PSite) :
    ∀ (fuel nIter : Nat) (ns vis : List PSite),
      (searchLoop struc tol fs fuel nIter ns vis).2 ≤ nIter + fuel := by
  intro fuel
  induction fuel with
  | zero => intro nIter ns vis; simp [searchLoop]
  | succ n ih =>
    intro nIter ns vis
    rw [searchLoop]
    split <;> split <;>
      first
        | (show nIter + 1 ≤ nIter + (n + 1); omega)
        | exact le_trans (ih (nIter + 1) _ _) (by omega)

/-- C6: for every input structure of `N` atoms the breadth-first traversal of
`search_molecule_in_crystal` executes at most `N` layer iterations — it stops
when a layer adds zero new atoms or when the counter reaches `N` — so the
extractor terminates on every input. -/
theorem search_layer_count_le_atom_count (struc : PStructure) (tol : ℚ) :
    searchIterCount struc tol ≤ struc.sites.length := by
  unfold searchIterCount
  cases h : struc.sites with
  | nil => simp
  | cons s0 rest =>
    have := searchLoop_iter_le struc tol { s0 with index := 0 }
      struc.sites.length 0 [] [{ s0 with index := 0 }]
    simpa [h] using this

theorem check_fold_no_bond (struc : PStructure) (tol : ℚ) (site0 : PSite)
    (ids : List Nat) (l : List PSite)
    (h : ∀ s1 ∈ l, struc.isBonded site0 s1 tol = false) :
    ∀ acc : List PSite × List Nat,
      l.foldl
        (fun (acc : List PSite × List Nat) site1 =>
          if site1.index ∈ ids ++ acc.2 then acc
          else if struc.isBonded site0 site1 tol then
            (acc.1 ++ [site1], acc.2 ++ [site1.index])
          else acc)
        acc = acc := by
  induction l with
  | nil => intro acc; rfl
  | cons x xs ih =>
    intro acc
    have hx : struc.isBonded site0 x tol = false := h x (List.mem_cons_self x xs)
    have hxs : ∀ s1 ∈ xs, struc.isBonded site0 s1 tol = false :=
      fun s1 hs1 => h s1 (List.mem_cons_of_mem x hs1)
    simp only [List.foldl_cons]
    rw [show (if x.index ∈ ids ++ acc.2 then acc
          else if struc.isBonded site0 x tol then
            (acc.1 ++ [x], acc.2 ++ [x.index])
          else acc) = acc by split <;> simp [hx]]
    exact ih hxs acc

theorem check_one_site_no_bond (struc : PStructure) (tol : ℚ) (site0 : PSite)
    (visited : List PSite)
    (h : ∀ s1 ∈ struc.getNeighbors site0, struc.isBonded site0 s1 tol = false) :
    check_one_site struc tol site0 visited = ([], visited) := by
  simp only [check_one_site]
  rw [check_fold_no_bond struc tol site0 (visited.map PSite.index)
    (struc.getNeighbors site0) h ([], [])]
  simp

/-- C9: for every structure whose seed atom (index 0) has no bonded neighbour
under the bonding predicate, `search_molecule_in_crystal` (with the default
`keep_order=False`, `absolute=True`) returns successfully with exactly one
atom: the seed's coordinates and atomic number. -/
theorem search_seed_without_bonds_single_atom (struc : PStructure) (tol : ℚ)
    (s0 : PSite) (rest : List PSite) (hs : struc.sites = s0 :: rest)
    (hnb : ∀ s1 ∈ struc.getNeighbors { s0 with index := 0 },
      struc.isBonded { s0 with index := 0 } s1 tol = false) :
    search_molecule_in_crystal struc tol false true =
      .ok ([s0.coords], [s0.number]) := by
  have h1 := check_one_site_no_bond struc tol { s0 with index := 0 }
    [{ s0 with index := 0 }] hnb
  unfold search_molecule_in_crystal
  rw [hs]
  simp only [List.length_cons]
  rw [searchLoop]
  simp [h1]

/-- Closed witness for the single-atom extraction, at the concrete one-atom
structure with no neighbours. -/
theorem search_seed_without_bonds_single_atom_witness :
    oneAtomStruc.sites = (⟨0, (0, 0, 0), 6⟩ : PSite) :: [] ∧
    (∀ s1 ∈ oneAtomStruc.getNeighbors ⟨0, (0, 0, 0), 6⟩,
      oneAtomStruc.isBonded ⟨0, (0, 0, 0), 6⟩ s1 (2/10) = false) ∧
    search_molecule_in_crystal oneAtomStruc (2/10) false true =
      .ok ([(0, 0, 0)], [6]) :=
  ⟨rfl, fun s1 h1 => absurd h1 (List.not_mem_nil s1),
    search_seed_without_bonds_single_atom oneAtomStruc (2/10) ⟨0, (0, 0, 0), 6⟩ [] rfl
      (fun s1 h1 => absurd h1 (List.not_mem_nil s1))⟩

/-- C2: at the concrete two-atom structure, `search_molecule_in_crystal` with
`keep_order = true` raises `TypeError` instead of returning the atoms
re-sorted by provenance index: the source indexes the plain Python lists
`coords`/`numbers` with the numpy array `np.argsort(ids)`. -/
theorem search_keep_order_raises_type_error :
    search_molecule_in_crystal twoAtomStruc (2/10) true true =
      .error "TypeError: only integer scalar arrays can be converted to a scalar index" := by
  rfl

theorem reduceComp_nonneg (q : ℚ) : 0 ≤ reduceComp q := Int.fract_nonneg q

theorem reduceComp_lt_one (q : ℚ) : reduceComp q < 1 := Int.fract_lt_one q

/-- C4: for every state and isomorphism mapping, the tentative fractional
position computed in `match` — centroid of the index-aligned fragment times
the inverse lattice matrix, reduced by subtracting the componentwise floor —
has every component in the half-open interval [0, 1). -/
theorem tentativePosition_components_in_Ico (st : ExtState) (mapping : Nat → Nat) :
    (0 ≤ (tentativePosition st mapping).1 ∧ (tentativePosition st mapping).1 < 1) ∧
    (0 ≤ (tentativePosition st mapping).2.1 ∧ (tentativePosition st mapping).2.1 < 1) ∧
    (0 ≤ (tentativePosition st mapping).2.2 ∧ (tentativePosition st mapping).2.2 < 1) := by
  unfold tentativePosition reduce3
  exact ⟨⟨reduceComp_nonneg _, reduceComp_lt_one _⟩,
    ⟨reduceComp_nonneg _, reduceComp_lt_one _⟩,
    ⟨reduceComp_nonneg _, reduceComp_lt_one _⟩⟩

/-- C3: in `match`, with a successful isomorphism report and a nonempty
discovered molecule (Python would divide by zero otherwise), the
special-position merge collaborator is consulted exactly when the number of
molecules in the cell — total atom count over fragment atom count — is
strictly below the generic orbit's multiplicity; in that case it is called
with the tentative reduced position, the lattice matrix, the generic orbit
and tolerance 2, and its returned position and orbit replace the tentative
ones; otherwise the tentative position and the generic orbit are kept. -/
theorem match_merge_exactly_on_special_position (cmp : Bool × (Nat → Nat))
    (wpMerge : Vec3 → Mat3 → Wyc → ℚ → Vec3 × Wyc × Unit)
    (rotOf : Mol → Mol → Mat3) (st : ExtState)
    (hm : cmp.1 = true) (hlen : 0 < st.molecule.numbers.length) :
    ((matchFn cmp wpMerge rotOf st).2.position, (matchFn cmp wpMerge rotOf st).2.wyc) =
      (if (st.pmg_len : ℚ) / (st.molecule.numbers.length : ℚ) < (st.wyc.mult : ℚ) then
        ((some (wpMerge (tentativePosition st cmp.2) st.lattice.matrix st.wyc 2).1 : Option Vec3),
         (wpMerge (tentativePosition st cmp.2) st.lattice.matrix st.wyc 2).2.1)
      else (some (tentativePosition st cmp.2), st.wyc)) := by
  unfold matchFn alignStep
  rw [hm]
  split <;> simp_all
  split <;> rfl

/-- Closed witness for the merge-dispatch theorem at the concrete inputs. -/
theorem match_merge_exactly_on_special_position_witness :
    ((true, id) : Bool × (Nat → Nat)).1 = true ∧ 0 < wSt3.molecule.numbers.length ∧
    ((matchFn (true, id) wMerge wRot wSt3).2.position,
     (matchFn (true, id) wMerge wRot wSt3).2.wyc) =
      (if (wSt3.pmg_len : ℚ) / (wSt3.molecule.numbers.length : ℚ) < (wSt3.wyc.mult : ℚ) then
        ((some (wMerge (tentativePosition wSt3 id) wSt3.lattice.matrix wSt3.wyc 2).1 : Option Vec3),
         (wMerge (tentativePosition wSt3 id) wSt3.lattice.matrix wSt3.wyc 2).2.1)
      else (some (tentativePosition wSt3 id), wSt3.wyc)) :=
  ⟨rfl, by decide,
    match_merge_exactly_on_special_position (true, id) wMerge wRot wSt3 rfl (by decide)⟩

/-- C7: when the isomorphism collaborator reports a non-match, `match` returns
`False` (no exception is modelled: the branch only prints) and the state is
unchanged — in particular `molecule` and `wyc` keep their values and
`position` and `ori` are not created. -/
theorem match_no_iso_returns_false_state_unchanged (cmp : Bool × (Nat → Nat))
    (wpMerge : Vec3 → Mat3 → Wyc → ℚ → Vec3 × Wyc × Unit)
    (rotOf : Mol → Mol → Mat3) (st : ExtState) (h : cmp.1 = false) :
    matchFn cmp wpMerge rotOf st = (false, st) := by
  unfold matchFn
  rw [h]
  simp

/-- Closed witness for the non-match branch at a concrete state. -/
theorem match_no_iso_returns_false_state_unchanged_witness :
    (((false, id) : Bool × (Nat → Nat)).1 = false) ∧
    matchFn (false, id) wMerge wRot wSt7 = (false, wSt7) :=
  ⟨rfl, match_no_iso_returns_false_state_unchanged (false, id) wMerge wRot wSt7 rfl⟩

/-- C8: construction fails exactly on an uninterpretable reference-molecule
argument, an uninterpretable structure argument, or a space-group lookup
that matches nothing — and otherwise completes without error. The hypothesis
excludes atomless structure objects, on which the upstream collaborators
(symmetry analysis, neighbour search) are not defined; for them the seed
access of the molecule search would fail before any site record exists. -/
theorem resolveRefMol_eq_none_iff (C : IOCollabs) (ra : RefMolArg) :
    resolveRefMol C ra = none ↔ ra = .other := by
  cases ra <;> simp [resolveRefMol]

theorem resolveStruc_eq_none_iff (C : IOCollabs) (sa : StrucArg) :
    resolveStruc C sa = none ↔ sa = .other := by
  cases sa <;> simp [resolveStruc]

theorem search_default_isOk (struc : PStructure) (tol : ℚ) (h : struc.sites ≠ []) :
    ∃ v, search_molecule_in_crystal struc tol false true = .ok v := by
  unfold search_molecule_in_crystal
  cases hs : struc.sites with
  | nil => exact absurd hs h
  | cons s0 rest => simp

theorem init_error_exactly_on_bad_inputs (C : IOCollabs) (sa : StrucArg)
    (ra : RefMolArg) (tol : ℚ)
    (hne : ∀ s, resolveStruc C sa = some s → (initSearchStruc C s).sites ≠ []) :
    (∃ e, structure_from_ext_init C sa ra tol = .error e) ↔
      (ra = .other ∨ sa = .other ∨
        ∃ s, resolveStruc C sa = some s ∧ (C.fromSymops (C.spaceGroupOps s)).1 = none) := by
  unfold structure_from_ext_init
  cases hr : resolveRefMol C ra with
  | none =>
    simp [(resolveRefMol_eq_none_iff C ra).mp hr]
  | some rm =>
    have hra : ¬ra = .other := by
      intro h
      rw [(resolveRefMol_eq_none_iff C ra).mpr h] at hr
      exact Option.noConfusion hr
    cases hst : resolveStruc C sa with
    | none =>
      simp [hra, (resolveStruc_eq_none_iff C sa).mp hst]
    | some pmg0 =>
      have hsa : ¬sa = .other := by
        intro h
        rw [(resolveStruc_eq_none_iff C sa).mpr h] at hst
        exact Option.noConfusion hst
      cases hw : (C.fromSymops (C.spaceGroupOps pmg0)).1 with
      | none =>
        simp only [hw]
        constructor
        · intro _
          exact Or.inr (Or.inr ⟨pmg0, rfl, hw⟩)
        · intro _
          exact ⟨"ValueError: Cannot find the space group matching the symmetry operation", rfl⟩
      | some wyc =>
        obtain ⟨v, hv⟩ := search_default_isOk (initSearchStruc C pmg0) tol (hne pmg0 hst)
        simp only [hw, hv]
        constructor
        · rintro ⟨e, he⟩
          exact Except.noConfusion he
        · rintro (h | h | ⟨s, hs1, hs2⟩)
          · exact absurd h hra
          · exact absurd h hsa
          · cases hs1
            rw [hw] at hs2
            exact Option.noConfusion hs2

/-- Closed witness for the constructor error taxonomy, at a well-formed
molecule object and structure object: the hypothesis holds and construction
indeed raises no error (neither side of the iff holds). -/
theorem init_error_exactly_on_bad_inputs_witness :
    (∀ s, resolveStruc wCollabs (.struc oneAtomStruc) = some s →
      (initSearchStruc wCollabs s).sites ≠ []) ∧
    ((∃ e, structure_from_ext_init wCollabs (.struc oneAtomStruc)
        (.mol ⟨[6], [(0, 0, 0)]⟩) (2/10) = .error e) ↔
      ((RefMolArg.mol ⟨[6], [(0, 0, 0)]⟩) = .other ∨
        (StrucArg.struc oneAtomStruc) = .other ∨
        ∃ s, resolveStruc wCollabs (.struc oneAtomStruc) = some s ∧
          (wCollabs.fromSymops (wCollabs.spaceGroupOps s)).1 = none)) := by
  have whne : ∀ s, resolveStruc wCollabs (.struc oneAtomStruc) = some s →
      (initSearchStruc wCollabs s).sites ≠ [] := by
    intro s h
    cases h
    decide
  exact ⟨whne, init_error_exactly_on_bad_inputs wCollabs _ _ (2/10) whne⟩

/-- C1: with `sym_num=None`, on a structure whose lattice family is
monoclinic, `write_cif` emits the symbol with every letter c replaced by n
and lists the first site's own generator operators exactly when that
generator set differs from the tabulated `G1`; when the sets are equal, or
the family is not monoclinic, the symbol is unchanged and `G1` is listed. -/
theorem monoclinic_symbol_and_generator_substitution (struc : StrucD)
    (s0 : SiteD) (rest : List SiteD) (hsites : (cifSites struc).1 = s0 :: rest) :
    (struc.group.lattice_type = "monoclinic" →
      (s0.wpGenerators ≠ struc.group.g1 →
        cifSymbolUsed struc none = struc.group.symbol.replace "c" "n" ∧
        cifWpsUsed struc none = s0.wpGenerators) ∧
      (s0.wpGenerators = struc.group.g1 →
        cifSymbolUsed struc none = struc.group.symbol ∧
        cifWpsUsed struc none = struc.group.g1)) ∧
    (struc.group.lattice_type ≠ "monoclinic" →
      cifSymbolUsed struc none = struc.group.symbol ∧
      cifWpsUsed struc none = struc.group.g1) := by
  constructor
  · intro hmono
    constructor
    · intro hne
      have hne' : struc.group.g1 ≠ s0.wpGenerators := Ne.symm hne
      constructor
      · simp [cifSymbolUsed, cifChangeSet, cifParams, hsites, hmono, hne']
      · simp [cifWpsUsed, cifChangeSet, cifParams, hsites, hmono, hne']
    · intro he
      constructor
      · simp [cifSymbolUsed, cifChangeSet, cifParams, hsites, hmono, he]
      · simp [cifWpsUsed, cifChangeSet, cifParams, hsites, hmono, he]
  · intro hnm
    constructor
    · simp [cifSymbolUsed, cifChangeSet, cifParams, hsites, hnm]
    · simp [cifWpsUsed, cifChangeSet, cifParams, hsites, hnm]

/-- Closed witness for the monoclinic substitution at the concrete
structure whose first site's generators differ from `G1`. -/
theorem monoclinic_symbol_and_generator_substitution_witness :
    (cifSites wMolStruc).1 = wMolSite :: [] ∧
    wMolStruc.group.lattice_type = "monoclinic" ∧
    wMolSite.wpGenerators ≠ wMolStruc.group.g1 ∧
    (cifSymbolUsed wMolStruc none = wMolStruc.group.symbol.replace "c" "n" ∧
      cifWpsUsed wMolStruc none = wMolSite.wpGenerators) :=
  ⟨rfl, rfl, by decide,
    ((monoclinic_symbol_and_generator_substitution wMolStruc wMolSite [] rfl).1
      rfl).1 (by decide)⟩

theorem molSymRows_expansion (site : SiteD) :
    ∀ n, 0 < n → molSymRows site n =
      (some ((List.range n).flatMap (fun i =>
          (site.getMolObject i).cart_coords.map (fun v => rowMatMul v site.inv_lattice))),
        (List.range n).flatMap (fun i => (site.getMolObject i).species)) := by
  intro n
  induction n with
  | zero => intro h; exact absurd h (by omega)
  | succ m ih =>
    intro _
    by_cases hm : 0 < m
    · have hrec := ih hm
      unfold molSymRows at hrec ⊢
      rw [List.range_succ, List.foldl_append, hrec]
      simp [List.range_succ]
    · have hm0 : m = 0 := by omega
      subst hm0
      simp [molSymRows, List.range_succ]

/-- C10 (amended): for every structure, header-independent parameters and
every positive `sym_num`, `write_cif` uses the fixed P1 header — symbol
"P1", International Tables number 1, cell setting "triclinic" — and the
identity-only generator list of group 1 regardless of the structure's own
space group, and every molecular site contributes the concatenation, over
the first `sym_num` symmetry copies, of that copy's atoms (cartesian
coordinates times the site's inverse lattice, species flattened). With
`sym_num = 0` and a molecular site the source instead raises `TypeError`
(see the counterexample). -/
theorem p1_export_ignores_group_and_expands_sym_copies (struc : StrucD)
    (n : Nat) (site : SiteD) (hn : 0 < n) :
    cifParams struc (some n) = ("triclinic", "P1", 1, group1_G1) ∧
    cifSymbolUsed struc (some n) = "P1" ∧
    cifWpsUsed struc (some n) = group1_G1 ∧
    cifSiteRowsE site true (some n) =
      .ok (List.zip
        ((List.range n).flatMap (fun i => (site.getMolObject i).species))
        ((List.range n).flatMap (fun i =>
          (site.getMolObject i).cart_coords.map (fun v => rowMatMul v site.inv_lattice)))) := by
  refine ⟨rfl, ?_, ?_, ?_⟩
  · simp [cifSymbolUsed, cifChangeSet, cifParams]
  · simp [cifWpsUsed, cifChangeSet, cifParams]
  · simp [cifSiteRowsE, molSymRows_expansion site n hn]

/-- Closed witness for the P1 export theorem at `sym_num = 1` and the
concrete molecular site. -/
theorem p1_export_ignores_group_and_expands_sym_copies_witness :
    0 < 1 ∧
    (cifParams wMolStruc (some 1) = ("triclinic", "P1", 1, group1_G1) ∧
      cifSymbolUsed wMolStruc (some 1) = "P1" ∧
      cifWpsUsed wMolStruc (some 1) = group1_G1 ∧
      cifSiteRowsE wMolSite true (some 1) =
        .ok (List.zip
          ((List.range 1).flatMap (fun i => (wMolSite.getMolObject i).species))
          ((List.range 1).flatMap (fun i =>
            (wMolSite.getMolObject i).cart_coords.map
              (fun v => rowMatMul v wMolSite.inv_lattice))))) :=
  ⟨by decide,
    p1_export_ignores_group_and_expands_sym_copies wMolStruc 1 wMolSite (by decide)⟩

/-- C10 counterexample: with `sym_num = 0` and one molecular site present,
the coordinate accumulator is still `None` when `zip` receives it and the
serializer raises `TypeError` instead of emitting a document, refuting the
claim for the non-None value 0. -/
theorem p1_export_sym_num_zero_raises_type_error :
    write_cif wMolStruc "" (some 0) =
      .error "TypeError: zip argument #2 must support iteration" := by
  with_unfolding_all rfl

/-- C5: for the triclinic P1 structure with a single atom site at fractional
(0.1, 0.2, 0.3), `write_cif` with `sym_num=None` and an empty header returns
a buffer whose symmetry loop consists of the single operator of group 1 and
which contains exactly one operator line (index 1, quoted identity), exactly
one atom line (coordinates to six decimals, occupancy 1), and ends with the
fixed `#END` marker line. -/
theorem p1_single_atom_cif_scenario :
    cifWpsUsed c5Struc none = ["x, y, z"] ∧
    cifOkSat (write_cif c5Struc "" none) (fun out =>
      (countLine out ("1 " ++ sq ++ "x, y, z" ++ sq)).beq 1 &&
      (countLine out "C           0.100000    0.200000    0.300000 1").beq 1 &&
      strEndsWith out "#END\n\n") = true :=
  ⟨by with_unfolding_all rfl, by with_unfolding_all rfl⟩

end PyXtalIO
